import Mathlib

/-!
Shallow embedding of the radio-recorder configuration web app (src/app.py).

The app is a CRUD panel over three JSON documents (shows, stations,
podcasts), each a JSON object mapping a string key to a record, plus a
feed-probe endpoint that fetches and inspects an RSS feed.

Python strings are modelled as Lean `String`; the Python string methods
used by the code (`strip`, `lower`, `replace` with a one-character
pattern, `split` at the first occurrence of a character) are embedded as
list-of-character functions below so that all definitions evaluate by
kernel reduction.  A JSON object is modelled as an association list
`List (String × α)` with unique keys (a Python dict can never hold a
duplicate key); dict operations keep insertion order exactly as Python
3.7+ dicts do.
-/

deriving instance DecidableEq for Except

/-- Python `str.strip()`: drop leading and trailing whitespace. -/
def pyStrip (s : String) : String :=
  String.mk (((s.data.dropWhile Char.isWhitespace).reverse.dropWhile Char.isWhitespace).reverse)

/-- ASCII lowercasing of one character, as Python `str.lower()` acts on the ASCII tag names the code compares. -/
def pyLowerChar (c : Char) : Char :=
  if 'A' <= c && c <= 'Z' then Char.ofNat (c.toNat + 32) else c

/-- Python `str.lower()`. -/
def pyLower (s : String) : String := String.mk (s.data.map pyLowerChar)

/-- Python `str.replace(a, b)` restricted to the one-character patterns the code uses (`field.replace("-", "_")`). -/
def pyReplaceChar (s : String) (a b : Char) : String :=
  String.mk (s.data.map (fun c => if c = a then b else c))

/-- Embedding of the tag-namespace strip in `test_podcast_feed`: Python
`if "\x7d" in tag: tag = tag.split("\x7d", 1)[1]`, i.e. keep only what follows
the first closing brace. -/
def stripNs (tag : String) : String :=
  if '\x7d' ∈ tag.data then String.mk ((tag.data.dropWhile (fun c => c ≠ '\x7d')).tail) else tag

/-- Python `key in doc` on a dict modelled as an association list. -/
def docMem {α : Type} (k : String) (d : List (String × α)) : Bool :=
  d.any (fun p => p.1 == k)

/-- Python `doc[key]` lookup (as a total function returning `Option`). -/
def docLookup {α : Type} (k : String) : List (String × α) → Option α
  | [] => none
  | p :: rest => if p.1 = k then some p.2 else docLookup k rest

/-- Python `doc.pop(key)`: the mapping with the binding for `k` removed. -/
def docErase {α : Type} (k : String) (d : List (String × α)) : List (String × α) :=
  d.filter (fun p => p.1 ≠ k)

/-- Python `doc[key] = v`: replace the value at an existing key in place
(keeping insertion order), or append a fresh binding at the end. -/
def docSet {α : Type} (k : String) (v : α) (d : List (String × α)) : List (String × α) :=
  if docMem k d then d.map (fun p => if p.1 = k then (k, v) else p) else d ++ [(k, v)]

/-- A show record: the JSON object stored under a show key, as the ordered
field list the form handler builds. -/
def Rec : Type := List (String × String)

instance : DecidableEq Rec := by unfold Rec; infer_instance

/-- Python `record.get(field)` on a show record. -/
def recGet (r : Rec) (k : String) : Option String :=
  (r.find? (fun p => p.1 == k)).map Prod.snd

/-- Python `record[field] = v` on a show record whose key `k` is already
present (the only way the code assigns into an existing record). -/
def recSet (r : Rec) (k v : String) : Rec :=
  r.map (fun p => if p.1 = k then (k, v) else p)

/-- Shows document: JSON object mapping show slug to show record. -/
def ShowsDoc : Type := List (String × Rec)

instance : DecidableEq ShowsDoc := by unfold ShowsDoc; infer_instance

/-- Stations document: JSON object mapping station ID to stream URL. -/
def StationsDoc : Type := List (String × String)

instance : DecidableEq StationsDoc := by unfold StationsDoc; infer_instance

/-- Embedding of `load_json`: an absent file loads as the empty mapping,
an existing file loads as its JSON object content. -/
def load_json {α : Type} : Option (List (String × α)) → List (String × α)
  | none => []
  | some d => d

/-- Embedding of `save_json` at the content level: `json.dump(data, f,
indent=2, sort_keys=True)` writes the complete mapping with its keys in
sorted order, replacing any prior content.  The serialized object is
modelled as the ordered sequence of key-value entries that is written. -/
def save_json {α : Type} (d : List (String × α)) : List (String × α) :=
  d.mergeSort (fun a b => decide (a.1 ≤ b.1))

/-- Default substituted for an empty remote-directory field (`DEFAULT_REMOTE_DIRECTORY`). -/
def DEFAULT_REMOTE_DIRECTORY : String :=
  "alwirtes@plex-server.lan:/Volumes/External_12tb/Plex/Radio\\ Rips/"

/-- Default substituted for an empty artwork-file field (`DEFAULT_ARTWORK_PATH`). -/
def DEFAULT_ARTWORK_PATH : String :=
  "/home/alw/code/radio_recorder_host/config/art/generic.jpg"

/-- The ordered field list `SHOW_FIELDS` (keys only; labels are UI glue). -/
def SHOW_FIELDS : List String :=
  ["show", "station", "artwork-file", "remote-directory", "frequency", "playlist-db-slug"]

/-- The field loop of `handle_show_form_submission`: walk `SHOW_FIELDS` in
order, read `request.form.get(field.replace("-", "_"), "").strip()`,
substitute the default for an empty remote-directory or artwork-file, and
stop at the first empty remaining field with the validation message. -/
def buildShowData (formGet : String → String) : List String → Except String Rec
  | [] => Except.ok []
  | field :: rest =>
    let value0 := pyStrip (formGet (pyReplaceChar field '-' '_'))
    let value := if field = "remote-directory" ∧ value0 = "" then DEFAULT_REMOTE_DIRECTORY else value0
    if field = "artwork-file" then
      (buildShowData formGet rest).map
        (fun d => (field, if value = "" then DEFAULT_ARTWORK_PATH else value) :: d)
    else if value = "" then
      Except.error ("Field \x27" ++ field ++ "\x27 is required.")
    else
      (buildShowData formGet rest).map (fun d => (field, value) :: d)

/-- Python truthiness test `original_key and original_key != key and key in doc`
guarding the duplicate-key rejection on edit. -/
def renameCollision {α : Type} (original : Option String) (key : String)
    (d : List (String × α)) : Bool :=
  match original with
  | none => false
  | some o => o != "" && o != key && docMem key d

/-- Python truthiness test `original_key and original_key in doc and original_key != key`
guarding the pop of the old key on a rename. -/
def renamePop {α : Type} (original : Option String) (key : String)
    (d : List (String × α)) : Bool :=
  match original with
  | none => false
  | some o => o != "" && docMem o d && o != key

/-- Outcome of a show form submission: the flash message, whether it was an
error flash, and the document passed to `save_json` (`none` when no save happened). -/
structure ShowOutcome where
  message : String
  isError : Bool
  saved : Option ShowsDoc
deriving DecidableEq

/-- Embedding of `handle_show_form_submission`. -/
def handle_show_form_submission (original_key : Option String)
    (formGet : String → String) (shows : ShowsDoc) : ShowOutcome :=
  let show_key := pyStrip (formGet "show_key")
  if show_key = "" then
    ⟨"A slug is required for the show.", true, none⟩
  else
    match buildShowData formGet SHOW_FIELDS with
    | Except.error msg => ⟨msg, true, none⟩
    | Except.ok data =>
      if renameCollision original_key show_key shows then
        ⟨"A show with key \x27" ++ show_key ++ "\x27 already exists.", true, none⟩
      else
        let shows1 :=
          if renamePop original_key show_key shows then
            docErase (original_key.getD "") shows
          else shows
        ⟨"Show \x27" ++ show_key ++ "\x27 saved successfully.", false,
          some (docSet show_key data shows1)⟩

/-- Embedding of `delete_show`. -/
def delete_show (show_key : String) (shows : ShowsDoc) : String × Option ShowsDoc :=
  if docMem show_key shows then
    ("Show \x27" ++ show_key ++ "\x27 deleted.", some (docErase show_key shows))
  else
    ("Show \x27" ++ show_key ++ "\x27 was not found.", none)

/-- The station-rename propagation loop of `handle_station_submission`:
every show record whose `station` field equals the old key gets it set to
the new key; all other records are untouched. -/
def renamePropagate (old new : String) (shows : ShowsDoc) : ShowsDoc :=
  shows.map (fun p =>
    if recGet p.2 "station" = some old then (p.1, recSet p.2 "station" new) else p)

/-- Whether the propagation loop sets its `updated` flag: some show record
has `station` equal to the old key. -/
def anyShowReferences (old : String) (shows : ShowsDoc) : Bool :=
  shows.any (fun p => recGet p.2 "station" == some old)

/-- Raw station form fields (`request.form.get(name, "")`). -/
structure StationForm where
  station_id : String
  stream_url : String

/-- Outcome of a station form submission: flash message, error flag, the
stations document passed to `save_json` if any, and the shows document
passed to `save_json` if the rename propagation persisted it. -/
structure StationOutcome where
  message : String
  isError : Bool
  stationsSaved : Option StationsDoc
  showsSaved : Option ShowsDoc
deriving DecidableEq

/-- Embedding of `handle_station_submission`, including the
rename-propagation pass over the shows document. -/
def handle_station_submission (original_id : Option String) (form : StationForm)
    (stations : StationsDoc) (shows : ShowsDoc) : StationOutcome :=
  let station_id := pyStrip form.station_id
  let stream_url := pyStrip form.stream_url
  if station_id = "" ∨ stream_url = "" then
    ⟨"Both station ID and stream URL are required.", true, none, none⟩
  else if renameCollision original_id station_id stations then
    ⟨"Station \x27" ++ station_id ++ "\x27 already exists.", true, none, none⟩
  else
    let stations1 :=
      if renamePop original_id station_id stations then
        docErase (original_id.getD "") stations
      else stations
    let stations2 := docSet station_id stream_url stations1
    let showsSaved :=
      match original_id with
      | some o =>
        if o ≠ "" ∧ o ≠ station_id then
          if anyShowReferences o shows then some (renamePropagate o station_id shows) else none
        else none
      | none => none
    ⟨"Station \x27" ++ station_id ++ "\x27 saved successfully.", false,
      some stations2, showsSaved⟩

/-- Embedding of `delete_station`. -/
def delete_station (station_id : String) (stations : StationsDoc) :
    String × Option StationsDoc :=
  if docMem station_id stations then
    ("Station \x27" ++ station_id ++ "\x27 deleted.", some (docErase station_id stations))
  else
    ("Station \x27" ++ station_id ++ "\x27 was not found.", none)

/-- A podcast record as stored by `handle_podcast_submission`. -/
structure PodcastRec where
  rss_feed : String
  author : String
  last_build_date : String
  download_old_episodes : Bool
deriving DecidableEq

/-- Podcasts document: JSON object mapping podcast ID to podcast record. -/
def PodcastsDoc : Type := List (String × PodcastRec)

instance : DecidableEq PodcastsDoc := by unfold PodcastsDoc; infer_instance

/-- Raw podcast form fields; `download_old_episodes` is
`request.form.get("download_old_episodes")`, absent when the checkbox is off. -/
structure PodcastForm where
  podcast_id : String
  rss_feed : String
  author : String
  last_build_date : String
  download_old_episodes : Option String

/-- Outcome of a podcast form submission. -/
structure PodcastOutcome where
  message : String
  isError : Bool
  saved : Option PodcastsDoc
deriving DecidableEq

/-- Embedding of `handle_podcast_submission`. -/
def handle_podcast_submission (original_id : Option String) (form : PodcastForm)
    (podcasts : PodcastsDoc) : PodcastOutcome :=
  let podcast_id := pyStrip form.podcast_id
  let rss_feed := pyStrip form.rss_feed
  let author := pyStrip form.author
  let last_build_date := pyStrip form.last_build_date
  let download_old_episodes := form.download_old_episodes == some "on"
  if podcast_id = "" then
    ⟨"A podcast ID is required.", true, none⟩
  else if rss_feed = "" then
    ⟨"An RSS feed URL is required.", true, none⟩
  else if renameCollision original_id podcast_id podcasts then
    ⟨"Podcast \x27" ++ podcast_id ++ "\x27 already exists.", true, none⟩
  else
    let podcasts1 :=
      if renamePop original_id podcast_id podcasts then
        docErase (original_id.getD "") podcasts
      else podcasts
    ⟨"Podcast \x27" ++ podcast_id ++ "\x27 saved successfully.", false,
      some (docSet podcast_id
        ⟨rss_feed, author, last_build_date, download_old_episodes⟩ podcasts1)⟩

/-- Embedding of `delete_podcast`. -/
def delete_podcast (podcast_id : String) (podcasts : PodcastsDoc) :
    String × Option PodcastsDoc :=
  if docMem podcast_id podcasts then
    ("Podcast \x27" ++ podcast_id ++ "\x27 deleted.", some (docErase podcast_id podcasts))
  else
    ("Podcast \x27" ++ podcast_id ++ "\x27 was not found.", none)

/-- An XML element as `xml.etree.ElementTree` exposes it to the probe: a
tag, the text content before the first child (`None` for an empty
element), and the list of direct children in document order. -/
inductive Xml where
  | mk (tag : String) (text : Option String) (children : List Xml)

/-- Tag of an element. -/
def Xml.tag : Xml → String
  | Xml.mk t _ _ => t

/-- Text of an element (`element.text`). -/
def Xml.text : Xml → Option String
  | Xml.mk _ t _ => t

/-- Direct children of an element, in document order. -/
def Xml.children : Xml → List Xml
  | Xml.mk _ _ c => c

/-- The JSON body `test_podcast_feed` returns, with the HTTP status code. -/
structure ProbeResult where
  success : Bool
  author : String
  last_build_date : String
  message : String
  status : Nat
deriving DecidableEq

/-- Embedding of `root.find("channel")`: the first direct child whose tag
is exactly `channel`. -/
def findChannelChild (e : Xml) : Option Xml :=
  e.children.find? (fun x => x.tag == "channel")

/-- Embedding of `root.find("./rss/channel")`: the first `channel` child of
an `rss` child, in document order. -/
def findRssChannel (root : Xml) : Option Xml :=
  (root.children.filter (fun x => x.tag == "rss")).findSome?
    (fun r => r.children.find? (fun x => x.tag == "channel"))

/-- The channel lookup of `test_podcast_feed`: try a direct `channel`
child first, then the nested `rss/channel` path. -/
def locateChannel (root : Xml) : Option Xml :=
  match findChannelChild root with
  | some c => some c
  | none => findRssChannel root

/-- The author loop of `test_podcast_feed`: scan the direct children of
the channel in order; at the first child whose tag, with any namespace
prefix stripped, lowercases to `author`, take `(child.text or "").strip()`
and stop; if none matches the author stays the empty string. -/
def authorScan : List Xml → String
  | [] => ""
  | c :: rest =>
    if pyLower (stripNs c.tag) = "author" then pyStrip (c.text.getD "") else authorScan rest

/-- Embedding of `channel.findtext("lastBuildDate")`: the text of the
first direct child whose tag is exactly `lastBuildDate` (the empty string
when that child exists with no text), or `None` (modelled through the
surrounding `or ""` as the empty string) when no such child exists. -/
def findtextLastBuildDate (channel : Xml) : String :=
  match channel.children.find? (fun c => c.tag == "lastBuildDate") with
  | some c => c.text.getD ""
  | none => ""

/-- The post-parse tail of `test_podcast_feed`, from the channel lookup to
the response. -/
def probeParsed (root : Xml) : ProbeResult :=
  match locateChannel root with
  | none => ⟨false, "", "", "RSS feed is missing a channel element.", 502⟩
  | some channel =>
    ⟨true, authorScan channel.children, pyStrip (findtextLastBuildDate channel), "", 200⟩

/-- Embedding of `test_podcast_feed`.  The network transfer and the XML
parse are the two effectful stages; each is passed in as a function so
that the handler stays pure: `fetch` maps the URL to the body bytes or
the URLError text, `parseXml` maps the body to the element tree or the
ParseError text. -/
def test_podcast_feed (payload_feed_url : Option String)
    (fetch : String → Except String String)
    (parseXml : String → Except String Xml) : ProbeResult :=
  let feed_url := pyStrip (payload_feed_url.getD "")
  if feed_url = "" then
    ⟨false, "", "", "Feed URL is required.", 400⟩
  else
    match fetch feed_url with
    | Except.error exc => ⟨false, "", "", "Failed to retrieve RSS feed: " ++ exc, 502⟩
    | Except.ok xml_bytes =>
      match parseXml xml_bytes with
      | Except.error exc => ⟨false, "", "", "Failed to parse RSS feed: " ++ exc, 502⟩
      | Except.ok root => probeParsed root

/-- The four fields of `SHOW_FIELDS` that have no default and must be
non-empty after trimming, in their `SHOW_FIELDS` order. -/
def requiredShowFields : List String :=
  ["show", "station", "frequency", "playlist-db-slug"]

/-- The first non-defaultable field whose submitted value trims to the
empty string, if any: the field whose validation error the loop reports. -/
def firstMissingField (formGet : String → String) : Option String :=
  requiredShowFields.find? (fun f => pyStrip (formGet (pyReplaceChar f '-' '_')) == "")

/-! ## Concrete data used by the witness theorems -/

/-- A concrete create-form payload: a fresh morning-show submission whose
artwork-file and remote-directory fields are left empty. -/
def wCreateForm : String → String := fun f =>
  if f = "show_key" then "morning-show"
  else if f = "show" then "Morning Show"
  else if f = "station" then "kexp"
  else if f = "frequency" then "88.5"
  else if f = "playlist_db_slug" then "morning" else ""

/-- The record the field loop builds from `wCreateForm`. -/
def wCreateData : Rec :=
  [("show", "Morning Show"), ("station", "kexp"),
   ("artwork-file", DEFAULT_ARTWORK_PATH),
   ("remote-directory", DEFAULT_REMOTE_DIRECTORY),
   ("frequency", "88.5"), ("playlist-db-slug", "morning")]

/-- A concrete shows document holding one record under morning-show. -/
def wShows0 : ShowsDoc := [("morning-show", [("show", "Old"), ("station", "kuow")])]

/-- A concrete podcasts document holding one record under serial. -/
def wPodcasts0 : PodcastsDoc := [("serial", ⟨"http://old", "a", "d", true⟩)]

/-- A concrete form payload whose station field is empty (the first
missing required field) while show is populated. -/
def wMissingForm : String → String := fun f =>
  if f = "show_key" then "my-show"
  else if f = "show" then "My Show"
  else if f = "frequency" then "99.9" else ""

/-- A concrete edit-form payload renaming a show to the occupied key kexp. -/
def wRenameForm : String → String := fun f =>
  if f = "show_key" then "kexp"
  else if f = "show" then "Swap" else if f = "station" then "kexp"
  else if f = "frequency" then "90.3" else if f = "playlist_db_slug" then "swap" else ""

/-- A concrete shows document with two records, keyed kexp and kuow. -/
def wShowsTwo : ShowsDoc :=
  [("kexp", [("show", "A"), ("station", "kexp")]),
   ("kuow", [("show", "B"), ("station", "kuow")])]

/-- A concrete stations document with two stations, kexp and kuow. -/
def wStationsTwo : StationsDoc := [("kexp", "http://kexp"), ("kuow", "http://kuow")]

/-- A channel element holding only a namespaced lastBuildDate child. -/
def wNsChannel : Xml :=
  Xml.mk "channel" none
    [Xml.mk "\x7bhttp://example.com/rss\x7dlastBuildDate"
      (some "Mon, 01 Jan 2024 00:00:00 GMT") []]

/-- A feed document whose channel is `wNsChannel`. -/
def wNsRoot : Xml := Xml.mk "rss" none [wNsChannel]

/-- A channel element holding a namespaced, capitalised Author child. -/
def wAuthorChannel : Xml :=
  Xml.mk "channel" none
    [Xml.mk "pubDate" (some "x") [],
     Xml.mk "\x7bhttp://www.itunes.com/dtds/podcast-1.0.dtd\x7dAuthor" (some "  Jane Doe ") []]

/-- A feed document whose channel is `wAuthorChannel`. -/
def wAuthorRoot : Xml := Xml.mk "rss" none [wAuthorChannel]

/-- A channel element holding an exact-tag lastBuildDate child. -/
def wLbdChannel : Xml :=
  Xml.mk "channel" none [Xml.mk "lastBuildDate" (some " Tue, 02 Jan 2024 00:00:00 GMT ") []]

/-- A feed document whose channel is `wLbdChannel`. -/
def wLbdRoot : Xml := Xml.mk "rss" none [wLbdChannel]

/-- A parsed document with no channel anywhere. -/
def wNoChannelRoot : Xml := Xml.mk "html" none [Xml.mk "body" none []]

/-! ## Helper lemmas -/

theorem docLookup_setMap {α : Type} (k : String) (v : α) (d : List (String × α)) :
    docLookup k (d.map (fun p => if p.1 = k then (k, v) else p)) =
      if docMem k d then some v else none := by
  induction d with
  | nil => simp [docLookup, docMem]
  | cons p rest ih =>
    by_cases h : p.1 = k
    · simp [docLookup, docMem, h]
    · have hpk : (p.1 == k) = false := beq_eq_false_iff_ne.mpr h
      simp only [List.map_cons, docLookup, h, if_false, ih]
      simp only [docMem, List.any_cons, hpk, Bool.false_or]

theorem docLookup_append_single {α : Type} (k : String) (v : α) (d : List (String × α))
    (h : docMem k d = false) : docLookup k (d ++ [(k, v)]) = some v := by
  induction d with
  | nil => simp [docLookup]
  | cons p rest ih =>
    simp only [docMem, List.any_cons, Bool.or_eq_false_iff] at h
    have hne : p.1 ≠ k := by
      intro hc
      simp [hc] at h
    have htail : docMem k rest = false := h.2
    simp [docLookup, hne, ih htail]

theorem docLookup_docSet_self {α : Type} (k : String) (v : α) (d : List (String × α)) :
    docLookup k (docSet k v d) = some v := by
  unfold docSet
  by_cases h : docMem k d
  · simp [h, docLookup_setMap]
  · simp [h, docLookup_append_single, (Bool.not_eq_true _).mp h]

/-! ## Claim theorems -/

/-- C6: a probe invocation whose feed URL is empty or absent after trimming
returns success false with exactly the message "Feed URL is required." and
status 400, and its result does not depend on the network at all (the fetch
and parse stages are never consulted). -/
theorem feed_probe_empty_url (payload : Option String)
    (fetch fetch2 : String → Except String String)
    (parse3 parse4 : String → Except String Xml)
    (h : pyStrip (payload.getD "") = "") :
    test_podcast_feed payload fetch parse3 =
      ⟨false, "", "", "Feed URL is required.", 400⟩
    ∧ test_podcast_feed payload fetch parse3 = test_podcast_feed payload fetch2 parse4 := by
  constructor <;> simp [test_podcast_feed, h]

/-- Witness for C6 at the all-whitespace URL payload. -/
theorem feed_probe_empty_url_witness :
    pyStrip ((some "   ").getD "") = ""
    ∧ (test_podcast_feed (some "   ") (fun _ => Except.error "net down")
          (fun _ => Except.error "bad xml") =
        ⟨false, "", "", "Feed URL is required.", 400⟩
      ∧ test_podcast_feed (some "   ") (fun _ => Except.error "net down")
            (fun _ => Except.error "bad xml") =
          test_podcast_feed (some "   ") (fun u => Except.ok u)
            (fun _ => Except.ok (Xml.mk "rss" none []))) :=
  ⟨by decide,
   feed_probe_empty_url (some "   ") (fun _ => Except.error "net down")
     (fun u => Except.ok u)
     (fun _ => Except.error "bad xml") (fun _ => Except.ok (Xml.mk "rss" none []))
     (by decide)⟩

/-- C9: a delete request naming a key absent from the target document
reports a not-found message and performs no save, for shows, stations,
and podcasts alike. -/
theorem delete_missing_key (k : String) (shows : ShowsDoc) (stations : StationsDoc)
    (podcasts : PodcastsDoc)
    (h1 : docMem k shows = false) (h2 : docMem k stations = false)
    (h3 : docMem k podcasts = false) :
    delete_show k shows = ("Show \x27" ++ k ++ "\x27 was not found.", none)
    ∧ delete_station k stations = ("Station \x27" ++ k ++ "\x27 was not found.", none)
    ∧ delete_podcast k podcasts = ("Podcast \x27" ++ k ++ "\x27 was not found.", none) := by
  refine ⟨?_, ?_, ?_⟩ <;> simp [delete_show, delete_station, delete_podcast, h1, h2, h3]

/-- Witness for C9: deleting the key "gone" from singleton documents that do not hold it. -/
theorem delete_missing_key_witness :
    (docMem "gone" ([("kexp", [("show", "x")])] : ShowsDoc) = false
      ∧ docMem "gone" ([("kexp", "http://u")] : StationsDoc) = false
      ∧ docMem "gone" ([("pod", ⟨"http://r", "", "", false⟩)] : PodcastsDoc) = false)
    ∧ (delete_show "gone" [("kexp", [("show", "x")])] =
        ("Show \x27gone\x27 was not found.", none)
      ∧ delete_station "gone" [("kexp", "http://u")] =
          ("Station \x27gone\x27 was not found.", none)
      ∧ delete_podcast "gone" [("pod", ⟨"http://r", "", "", false⟩)] =
          ("Podcast \x27gone\x27 was not found.", none)) :=
  ⟨⟨by decide, by decide, by decide⟩,
   delete_missing_key "gone" [("kexp", [("show", "x")])] [("kexp", "http://u")]
     [("pod", ⟨"http://r", "", "", false⟩)] (by decide) (by decide) (by decide)⟩

/-- C10: the duplicate-key rejection applies only to edits.  A create
submission (no original key) whose key matches an existing record raises
no collision error: it completes with the saved-successfully flash and
silently overwrites the existing record, for shows, stations, and
podcasts alike. -/
theorem create_overwrites_existing
    (formGet : String → String) (shows : ShowsDoc) (data : Rec)
    (sform : StationForm) (stations : StationsDoc)
    (pform : PodcastForm) (podcasts : PodcastsDoc)
    (hk : pyStrip (formGet "show_key") ≠ "")
    (hmem : docMem (pyStrip (formGet "show_key")) shows = true)
    (hdata : buildShowData formGet SHOW_FIELDS = Except.ok data)
    (hsid : pyStrip sform.station_id ≠ "") (hurl : pyStrip sform.stream_url ≠ "")
    (hsmem : docMem (pyStrip sform.station_id) stations = true)
    (hpid : pyStrip pform.podcast_id ≠ "") (hrss : pyStrip pform.rss_feed ≠ "")
    (hpmem : docMem (pyStrip pform.podcast_id) podcasts = true) :
    (handle_show_form_submission none formGet shows =
        ⟨"Show \x27" ++ pyStrip (formGet "show_key") ++ "\x27 saved successfully.", false,
          some (docSet (pyStrip (formGet "show_key")) data shows)⟩
      ∧ docLookup (pyStrip (formGet "show_key"))
          (docSet (pyStrip (formGet "show_key")) data shows) = some data)
    ∧ (handle_station_submission none sform stations shows =
        ⟨"Station \x27" ++ pyStrip sform.station_id ++ "\x27 saved successfully.", false,
          some (docSet (pyStrip sform.station_id) (pyStrip sform.stream_url) stations), none⟩
      ∧ docLookup (pyStrip sform.station_id)
          (docSet (pyStrip sform.station_id) (pyStrip sform.stream_url) stations) =
            some (pyStrip sform.stream_url))
    ∧ (handle_podcast_submission none pform podcasts =
        ⟨"Podcast \x27" ++ pyStrip pform.podcast_id ++ "\x27 saved successfully.", false,
          some (docSet (pyStrip pform.podcast_id)
            ⟨pyStrip pform.rss_feed, pyStrip pform.author, pyStrip pform.last_build_date,
              pform.download_old_episodes == some "on"⟩ podcasts)⟩
      ∧ docLookup (pyStrip pform.podcast_id)
          (docSet (pyStrip pform.podcast_id)
            ⟨pyStrip pform.rss_feed, pyStrip pform.author, pyStrip pform.last_build_date,
              pform.download_old_episodes == some "on"⟩ podcasts) =
            some ⟨pyStrip pform.rss_feed, pyStrip pform.author, pyStrip pform.last_build_date,
              pform.download_old_episodes == some "on"⟩) := by
  refine ⟨⟨?_, docLookup_docSet_self _ _ _⟩, ⟨?_, docLookup_docSet_self _ _ _⟩,
    ⟨?_, docLookup_docSet_self _ _ _⟩⟩
  · simp [handle_show_form_submission, hk, hdata, renameCollision, renamePop]
  · simp [handle_station_submission, hsid, hurl, renameCollision, renamePop]
  · simp [handle_podcast_submission, hpid, hrss, renameCollision, renamePop]

/-- Witness for C10: creating over the existing keys morning-show, kexp,
and serial overwrites each record without a collision error. -/
theorem create_overwrites_existing_witness :
    (pyStrip (wCreateForm "show_key") ≠ ""
      ∧ docMem (pyStrip (wCreateForm "show_key")) wShows0 = true
      ∧ buildShowData wCreateForm SHOW_FIELDS = Except.ok wCreateData
      ∧ pyStrip "kexp" ≠ "" ∧ pyStrip "http://new" ≠ ""
      ∧ docMem (pyStrip "kexp") ([("kexp", "http://old")] : StationsDoc) = true
      ∧ pyStrip "serial" ≠ "" ∧ pyStrip "http://rss" ≠ ""
      ∧ docMem (pyStrip "serial") wPodcasts0 = true)
    ∧ handle_show_form_submission none wCreateForm wShows0 =
        ⟨"Show \x27morning-show\x27 saved successfully.", false,
          some (docSet "morning-show" wCreateData wShows0)⟩
    ∧ handle_station_submission none ⟨"kexp", "http://new"⟩ [("kexp", "http://old")] wShows0 =
        ⟨"Station \x27kexp\x27 saved successfully.", false,
          some (docSet "kexp" "http://new" [("kexp", "http://old")]), none⟩
    ∧ handle_podcast_submission none ⟨"serial", "http://rss", "", "", none⟩ wPodcasts0 =
        ⟨"Podcast \x27serial\x27 saved successfully.", false,
          some (docSet "serial" ⟨"http://rss", "", "", false⟩ wPodcasts0)⟩ := by
  have h := create_overwrites_existing wCreateForm wShows0 wCreateData
    ⟨"kexp", "http://new"⟩ [("kexp", "http://old")]
    ⟨"serial", "http://rss", "", "", none⟩ wPodcasts0
    (by decide) (by decide) (by decide) (by decide) (by decide) (by decide)
    (by decide) (by decide) (by decide)
  exact ⟨⟨by decide, by decide, by decide, by decide, by decide, by decide, by decide, by decide,
    by decide⟩, h.1.1, h.2.1.1, h.2.2.1⟩

/-- C2: an edit submission that renames a record (original key present,
submitted key different) to a key already held by another existing record
is rejected with an error flash and nothing is saved, so the persisted
document is unchanged; this holds for the shows document and for the
stations document. -/
theorem rename_collision_rejected
    (o : String) (formGet : String → String) (shows : ShowsDoc)
    (sform : StationForm) (stations : StationsDoc) (shows2 : ShowsDoc)
    (ho : o ≠ "")
    (hdiff : pyStrip (formGet "show_key") ≠ o)
    (hmem : docMem (pyStrip (formGet "show_key")) shows = true)
    (hsdiff : pyStrip sform.station_id ≠ o)
    (hsmem : docMem (pyStrip sform.station_id) stations = true) :
    ((handle_show_form_submission (some o) formGet shows).isError = true
      ∧ (handle_show_form_submission (some o) formGet shows).saved = none)
    ∧ ((handle_station_submission (some o) sform stations shows2).isError = true
      ∧ (handle_station_submission (some o) sform stations shows2).stationsSaved = none
      ∧ (handle_station_submission (some o) sform stations shows2).showsSaved = none) := by
  constructor
  · unfold handle_show_form_submission
    by_cases hk : pyStrip (formGet "show_key") = ""
    · simp [hk]
    · have hcol : renameCollision (some o) (pyStrip (formGet "show_key")) shows = true := by
        simp only [renameCollision, Bool.and_eq_true, bne_iff_ne]
        exact ⟨⟨ho, fun hc => hdiff hc.symm⟩, hmem⟩
      cases hbd : buildShowData formGet SHOW_FIELDS with
      | error msg => simp [hk, hbd]
      | ok data => simp [hk, hbd, hcol]
  · unfold handle_station_submission
    by_cases hv : pyStrip sform.station_id = "" ∨ pyStrip sform.stream_url = ""
    · simp [hv]
    · have hcol : renameCollision (some o) (pyStrip sform.station_id) stations = true := by
        simp only [renameCollision, Bool.and_eq_true, bne_iff_ne]
        exact ⟨⟨ho, fun hc => hsdiff hc.symm⟩, hsmem⟩
      simp [hv, hcol]

/-- Witness for C2: renaming kuow to the occupied key kexp is rejected for
both a show edit and a station edit. -/
theorem rename_collision_rejected_witness :
    ((("kuow" : String) ≠ ""
      ∧ pyStrip (wRenameForm "show_key") ≠ "kuow"
      ∧ docMem (pyStrip (wRenameForm "show_key")) wShowsTwo = true
      ∧ pyStrip "kexp" ≠ "kuow"
      ∧ docMem (pyStrip "kexp") wStationsTwo = true))
    ∧ (((handle_show_form_submission (some "kuow") wRenameForm wShowsTwo).isError = true
      ∧ (handle_show_form_submission (some "kuow") wRenameForm wShowsTwo).saved = none)
    ∧ ((handle_station_submission (some "kuow") ⟨"kexp", "http://u"⟩ wStationsTwo []).isError = true
      ∧ (handle_station_submission (some "kuow") ⟨"kexp", "http://u"⟩ wStationsTwo []).stationsSaved = none
      ∧ (handle_station_submission (some "kuow") ⟨"kexp", "http://u"⟩ wStationsTwo []).showsSaved = none)) :=
  ⟨⟨by decide, by decide, by decide, by decide, by decide⟩,
   rename_collision_rejected "kuow" wRenameForm wShowsTwo ⟨"kexp", "http://u"⟩ wStationsTwo []
     (by decide) (by decide) (by decide) (by decide) (by decide)⟩

theorem find?_map_set (k v : String) (r : List (String × String))
    (h : (r.find? (fun p => p.1 == k)).isSome) :
    (r.map (fun p => if p.1 = k then (k, v) else p)).find? (fun p => p.1 == k) =
      some (k, v) := by
  induction r with
  | nil => simp at h
  | cons p rest ih =>
    by_cases hp : p.1 = k
    · simp [List.find?, hp]
    · have hpk : (p.1 == k) = false := beq_eq_false_iff_ne.mpr hp
      simp only [List.find?, hpk, List.map_cons, if_neg hp] at h ⊢
      exact ih h

theorem recGet_recSet_of_present (r : Rec) (k v w : String) (h : recGet r k = some w) :
    recGet (recSet r k v) k = some v := by
  have hs : (r.find? (fun p => p.1 == k)).isSome := by
    unfold recGet at h
    cases hf : r.find? (fun p => p.1 == k) with
    | none => rw [hf] at h; simp at h
    | some q => simp [hf]
  unfold recGet recSet
  rw [find?_map_set k v r hs]
  rfl

/-- C1: a station rename from old key to a distinct new key rewrites the
station field of exactly the show records that referenced the old key:
afterwards each such record points at the new key, no record points at the
old key, every record with a different station value is untouched (and
keeps its key and position), and the shows document is saved only when at
least one record referenced the old key. -/
theorem station_rename_propagation
    (o : String) (form : StationForm) (stations : StationsDoc) (shows : ShowsDoc)
    (ho : o ≠ "")
    (hsid : pyStrip form.station_id ≠ "")
    (hurl : pyStrip form.stream_url ≠ "")
    (hnew : o ≠ pyStrip form.station_id)
    (hfree : docMem (pyStrip form.station_id) stations = false) :
    (handle_station_submission (some o) form stations shows).showsSaved =
      (if anyShowReferences o shows
        then some (renamePropagate o (pyStrip form.station_id) shows) else none)
    ∧ (renamePropagate o (pyStrip form.station_id) shows).length = shows.length
    ∧ ∀ i (hi : i < shows.length)
        (hj : i < (renamePropagate o (pyStrip form.station_id) shows).length),
        (((renamePropagate o (pyStrip form.station_id) shows).get ⟨i, hj⟩).1 =
          (shows.get ⟨i, hi⟩).1)
        ∧ (recGet (shows.get ⟨i, hi⟩).2 "station" = some o →
            recGet ((renamePropagate o (pyStrip form.station_id) shows).get ⟨i, hj⟩).2
              "station" = some (pyStrip form.station_id))
        ∧ (recGet (shows.get ⟨i, hi⟩).2 "station" ≠ some o →
            (renamePropagate o (pyStrip form.station_id) shows).get ⟨i, hj⟩ =
              shows.get ⟨i, hi⟩)
        ∧ recGet ((renamePropagate o (pyStrip form.station_id) shows).get ⟨i, hj⟩).2
            "station" ≠ some o := by
  refine ⟨?_, by simp [renamePropagate], ?_⟩
  · have hcol : renameCollision (some o) (pyStrip form.station_id) stations = false := by
      simp [renameCollision, hfree]
    simp [handle_station_submission, hsid, hurl, hcol, ho, hnew]
  · intro i hi hj
    have hmap : (renamePropagate o (pyStrip form.station_id) shows).get ⟨i, hj⟩ =
        (fun p => if recGet p.2 "station" = some o
          then (p.1, recSet p.2 "station" (pyStrip form.station_id)) else p)
          (shows.get ⟨i, hi⟩) := by
      simp [renamePropagate, List.get_eq_getElem, List.getElem_map]
    by_cases hst : recGet (shows.get ⟨i, hi⟩).2 "station" = some o
    · have hfun : (fun p => if recGet p.2 "station" = some o
          then (p.1, recSet p.2 "station" (pyStrip form.station_id)) else p)
            (shows.get ⟨i, hi⟩) =
          ((shows.get ⟨i, hi⟩).1,
            recSet (shows.get ⟨i, hi⟩).2 "station" (pyStrip form.station_id)) := by
        simp only [hst, if_true]
      have hset := recGet_recSet_of_present (shows.get ⟨i, hi⟩).2 "station"
        (pyStrip form.station_id) o hst
      rw [hmap, hfun]
      refine ⟨rfl, fun _ => hset, fun hc => absurd hst hc, ?_⟩
      rw [hset]
      intro hc
      exact hnew (Option.some_injective _ hc).symm
    · have hfun : (fun p => if recGet p.2 "station" = some o
          then (p.1, recSet p.2 "station" (pyStrip form.station_id)) else p)
            (shows.get ⟨i, hi⟩) = shows.get ⟨i, hi⟩ := by
        simp only [hst, if_false]
      rw [hmap, hfun]
      exact ⟨rfl, fun hc => absurd hc hst, fun _ => rfl, hst⟩

/-- Witness for C1: renaming station kuow to kuow-v2 against a shows
document in which one record references kuow. -/
theorem station_rename_propagation_witness :
    (("kuow" : String) ≠ "" ∧ pyStrip "kuow-v2" ≠ "" ∧ pyStrip "http://u" ≠ ""
      ∧ ("kuow" : String) ≠ pyStrip "kuow-v2"
      ∧ docMem (pyStrip "kuow-v2") ([("kuow", "http://old")] : StationsDoc) = false)
    ∧ (handle_station_submission (some "kuow") ⟨"kuow-v2", "http://u"⟩
        [("kuow", "http://old")] wShowsTwo).showsSaved =
      (if anyShowReferences "kuow" wShowsTwo
        then some (renamePropagate "kuow" (pyStrip "kuow-v2") wShowsTwo) else none) :=
  ⟨⟨by decide, by decide, by decide, by decide, by decide⟩,
   (station_rename_propagation "kuow" ⟨"kuow-v2", "http://u"⟩ [("kuow", "http://old")]
     wShowsTwo (by decide) (by decide) (by decide) (by decide) (by decide)).1⟩

theorem buildShowData_eq (formGet : String → String) :
    buildShowData formGet SHOW_FIELDS =
      (if pyStrip (formGet "show") = "" then
        Except.error "Field \x27show\x27 is required."
      else if pyStrip (formGet "station") = "" then
        Except.error "Field \x27station\x27 is required."
      else if pyStrip (formGet "frequency") = "" then
        Except.error "Field \x27frequency\x27 is required."
      else if pyStrip (formGet "playlist_db_slug") = "" then
        Except.error "Field \x27playlist-db-slug\x27 is required."
      else Except.ok
        [("show", pyStrip (formGet "show")),
         ("station", pyStrip (formGet "station")),
         ("artwork-file",
           if pyStrip (formGet "artwork_file") = "" then DEFAULT_ARTWORK_PATH
           else pyStrip (formGet "artwork_file")),
         ("remote-directory",
           if pyStrip (formGet "remote_directory") = "" then DEFAULT_REMOTE_DIRECTORY
           else pyStrip (formGet "remote_directory")),
         ("frequency", pyStrip (formGet "frequency")),
         ("playlist-db-slug", pyStrip (formGet "playlist_db_slug"))]) := by
  have e1 : pyReplaceChar "show" '-' '_' = "show" := by decide
  have e2 : pyReplaceChar "station" '-' '_' = "station" := by decide
  have e3 : pyReplaceChar "artwork-file" '-' '_' = "artwork_file" := by decide
  have e4 : pyReplaceChar "remote-directory" '-' '_' = "remote_directory" := by decide
  have e5 : pyReplaceChar "frequency" '-' '_' = "frequency" := by decide
  have e6 : pyReplaceChar "playlist-db-slug" '-' '_' = "playlist_db_slug" := by decide
  have hdr : ¬ DEFAULT_REMOTE_DIRECTORY = "" := by decide
  simp only [SHOW_FIELDS, buildShowData, e1, e2, e3, e4, e5, e6]
  by_cases h1 : pyStrip (formGet "show") = "" <;>
  by_cases h2 : pyStrip (formGet "station") = "" <;>
  by_cases h5 : pyStrip (formGet "frequency") = "" <;>
  by_cases h6 : pyStrip (formGet "playlist_db_slug") = "" <;>
  by_cases h4 : pyStrip (formGet "remote_directory") = "" <;>
  by_cases h3 : pyStrip (formGet "artwork_file") = "" <;>
    simp [h1, h2, h3, h4, h5, h6, hdr, Except.map]

theorem firstMissingField_eq (formGet : String → String) :
    firstMissingField formGet =
      (if pyStrip (formGet "show") = "" then some "show"
      else if pyStrip (formGet "station") = "" then some "station"
      else if pyStrip (formGet "frequency") = "" then some "frequency"
      else if pyStrip (formGet "playlist_db_slug") = "" then some "playlist-db-slug"
      else none) := by
  have e1 : pyReplaceChar "show" '-' '_' = "show" := by decide
  have e2 : pyReplaceChar "station" '-' '_' = "station" := by decide
  have e5 : pyReplaceChar "frequency" '-' '_' = "frequency" := by decide
  have e6 : pyReplaceChar "playlist-db-slug" '-' '_' = "playlist_db_slug" := by decide
  by_cases h1 : pyStrip (formGet "show") = ""
  · have b1 : (pyStrip (formGet (pyReplaceChar "show" '-' '_')) == "") = true := by
      rw [e1, h1]; decide
    simp [firstMissingField, requiredShowFields, List.find?, b1, h1]
  · have b1 : (pyStrip (formGet (pyReplaceChar "show" '-' '_')) == "") = false := by
      rw [e1]; exact beq_eq_false_iff_ne.mpr h1
    by_cases h2 : pyStrip (formGet "station") = ""
    · have b2 : (pyStrip (formGet (pyReplaceChar "station" '-' '_')) == "") = true := by
        rw [e2, h2]; decide
      simp [firstMissingField, requiredShowFields, List.find?, b1, b2, h1, h2]
    · have b2 : (pyStrip (formGet (pyReplaceChar "station" '-' '_')) == "") = false := by
        rw [e2]; exact beq_eq_false_iff_ne.mpr h2
      by_cases h5 : pyStrip (formGet "frequency") = ""
      · have b5 : (pyStrip (formGet (pyReplaceChar "frequency" '-' '_')) == "") = true := by
          rw [e5, h5]; decide
        simp [firstMissingField, requiredShowFields, List.find?, b1, b2, b5, h1, h2, h5]
      · have b5 : (pyStrip (formGet (pyReplaceChar "frequency" '-' '_')) == "") = false := by
          rw [e5]; exact beq_eq_false_iff_ne.mpr h5
        by_cases h6 : pyStrip (formGet "playlist_db_slug") = ""
        · have b6 : (pyStrip (formGet (pyReplaceChar "playlist-db-slug" '-' '_')) == "") = true := by
            rw [e6, h6]; decide
          simp [firstMissingField, requiredShowFields, List.find?, b1, b2, b5, b6, h1, h2, h5, h6]
        · have b6 : (pyStrip (formGet (pyReplaceChar "playlist-db-slug" '-' '_')) == "") = false := by
            rw [e6]; exact beq_eq_false_iff_ne.mpr h6
          simp [firstMissingField, requiredShowFields, List.find?, b1, b2, b5, b6, h1, h2, h5, h6]

/-- C4: a show form submission requires show, station, frequency, and
playlist-db-slug to be non-empty after trimming; an empty remote-directory
and an empty artwork-file are instead replaced by the configured defaults.
When a required field is empty the handler flashes a validation error
naming that field and aborts without saving, leaving the prior shows
document untouched; otherwise the field loop produces the record with the
trimmed values and the default substitutions. -/
theorem show_form_validation (formGet : String → String) (original : Option String)
    (shows : ShowsDoc)
    (hkey : pyStrip (formGet "show_key") ≠ "") :
    (∀ f, firstMissingField formGet = some f →
      handle_show_form_submission original formGet shows =
        ⟨"Field \x27" ++ f ++ "\x27 is required.", true, none⟩)
    ∧ (firstMissingField formGet = none →
      buildShowData formGet SHOW_FIELDS = Except.ok
        [("show", pyStrip (formGet "show")),
         ("station", pyStrip (formGet "station")),
         ("artwork-file",
           if pyStrip (formGet "artwork_file") = "" then DEFAULT_ARTWORK_PATH
           else pyStrip (formGet "artwork_file")),
         ("remote-directory",
           if pyStrip (formGet "remote_directory") = "" then DEFAULT_REMOTE_DIRECTORY
           else pyStrip (formGet "remote_directory")),
         ("frequency", pyStrip (formGet "frequency")),
         ("playlist-db-slug", pyStrip (formGet "playlist_db_slug"))]) := by
  constructor
  · intro f hf
    rw [firstMissingField_eq] at hf
    unfold handle_show_form_submission
    rw [buildShowData_eq]
    by_cases h1 : pyStrip (formGet "show") = ""
    · simp only [h1, if_true, Option.some.injEq] at hf
      subst hf
      simp [hkey, h1]
    · by_cases h2 : pyStrip (formGet "station") = ""
      · simp only [h1, h2, if_false, if_true, Option.some.injEq] at hf
        subst hf
        simp [hkey, h1, h2]
      · by_cases h5 : pyStrip (formGet "frequency") = ""
        · simp only [h1, h2, h5, if_false, if_true, Option.some.injEq] at hf
          subst hf
          simp [hkey, h1, h2, h5]
        · by_cases h6 : pyStrip (formGet "playlist_db_slug") = ""
          · simp only [h1, h2, h5, h6, if_false, if_true, Option.some.injEq] at hf
            subst hf
            simp [hkey, h1, h2, h5, h6]
          · simp [h1, h2, h5, h6] at hf
  · intro hn
    rw [firstMissingField_eq] at hn
    rw [buildShowData_eq]
    by_cases h1 : pyStrip (formGet "show") = ""
    · simp [h1] at hn
    · by_cases h2 : pyStrip (formGet "station") = ""
      · simp [h1, h2] at hn
      · by_cases h5 : pyStrip (formGet "frequency") = ""
        · simp [h1, h2, h5] at hn
        · by_cases h6 : pyStrip (formGet "playlist_db_slug") = ""
          · simp [h1, h2, h5, h6] at hn
          · simp [h1, h2, h5, h6]

/-- Witness for C4 at a form whose station field is empty: the handler
reports that field and saves nothing. -/
theorem show_form_validation_witness :
    pyStrip (wMissingForm "show_key") ≠ ""
    ∧ ((∀ f, firstMissingField wMissingForm = some f →
        handle_show_form_submission none wMissingForm [] =
          ⟨"Field \x27" ++ f ++ "\x27 is required.", true, none⟩)
      ∧ (firstMissingField wMissingForm = none →
        buildShowData wMissingForm SHOW_FIELDS = Except.ok
          [("show", pyStrip (wMissingForm "show")),
           ("station", pyStrip (wMissingForm "station")),
           ("artwork-file",
             if pyStrip (wMissingForm "artwork_file") = "" then DEFAULT_ARTWORK_PATH
             else pyStrip (wMissingForm "artwork_file")),
           ("remote-directory",
             if pyStrip (wMissingForm "remote_directory") = "" then DEFAULT_REMOTE_DIRECTORY
             else pyStrip (wMissingForm "remote_directory")),
           ("frequency", pyStrip (wMissingForm "frequency")),
           ("playlist-db-slug", pyStrip (wMissingForm "playlist_db_slug"))])) :=
  ⟨by decide, show_form_validation wMissingForm none [] (by decide)⟩

theorem docLookup_eq_none_iff {α : Type} (k : String) (d : List (String × α)) :
    docLookup k d = none ↔ k ∉ d.map Prod.fst := by
  induction d with
  | nil => simp [docLookup]
  | cons p rest ih =>
    by_cases h : p.1 = k
    · simp [docLookup, h]
    · simp only [docLookup, if_neg h, List.map_cons, List.mem_cons, not_or, ih]
      constructor
      · intro hn
        exact ⟨fun hc => h hc.symm, hn⟩
      · intro hn
        exact hn.2

theorem docLookup_eq_some_of_mem {α : Type} {k : String} {v : α} {d : List (String × α)}
    (hnd : (d.map Prod.fst).Nodup) (hm : (k, v) ∈ d) : docLookup k d = some v := by
  induction d with
  | nil => simp at hm
  | cons p rest ih =>
    simp only [List.map_cons, List.nodup_cons] at hnd
    rcases List.mem_cons.mp hm with h | h
    · rw [← h]
      simp [docLookup]
    · by_cases hpk : p.1 = k
      · exfalso
        apply hnd.1
        rw [hpk]
        exact List.mem_map_of_mem Prod.fst h
      · simp [docLookup, hpk, ih hnd.2 h]

theorem docLookup_mem {α : Type} {k : String} {v : α} {d : List (String × α)}
    (h : docLookup k d = some v) : (k, v) ∈ d := by
  induction d with
  | nil => simp [docLookup] at h
  | cons p rest ih =>
    by_cases hpk : p.1 = k
    · simp only [docLookup, hpk, if_true, Option.some.injEq] at h
      have hpe : p = (k, v) := by
        cases p
        simp_all
      rw [← hpe]
      exact List.mem_cons_self _ _
    · simp only [docLookup, hpk, if_false] at h
      exact List.mem_cons_of_mem _ (ih h)

theorem docLookup_perm {α : Type} {d d2 : List (String × α)} (hp : d.Perm d2)
    (hnd : (d.map Prod.fst).Nodup) (k : String) : docLookup k d = docLookup k d2 := by
  have hnd2 : (d2.map Prod.fst).Nodup := (hp.map Prod.fst).nodup hnd
  cases hl : docLookup k d with
  | some v => exact (docLookup_eq_some_of_mem hnd2 (hp.mem_iff.mp (docLookup_mem hl))).symm
  | none =>
    symm
    rw [docLookup_eq_none_iff] at hl ⊢
    intro hc
    exact hl ((hp.map Prod.fst).mem_iff.mpr hc)

theorem save_json_perm {α : Type} (d : List (String × α)) : (save_json d).Perm d :=
  List.mergeSort_perm d _

theorem save_json_sorted {α : Type} (d : List (String × α)) :
    List.Pairwise (fun p q : String × α => p.1 ≤ q.1) (save_json d) := by
  have htrans : ∀ a b c : String × α,
      decide (a.1 ≤ b.1) = true → decide (b.1 ≤ c.1) = true →
        decide (a.1 ≤ c.1) = true := by
    intro a b c hab hbc
    simp only [decide_eq_true_eq] at hab hbc ⊢
    exact le_trans hab hbc
  have htotal : ∀ a b : String × α,
      (decide (a.1 ≤ b.1) || decide (b.1 ≤ a.1)) = true := by
    intro a b
    simp only [Bool.or_eq_true, decide_eq_true_eq]
    exact le_total a.1 b.1
  have h := List.sorted_mergeSort htrans htotal d
  exact h.imp (fun hab => by simpa using hab)

/-- C5: saving the result of loading a document leaves its content
unchanged up to key-order normalization: the written sequence binds every
key to the same value as before, is a permutation of the loaded content,
and carries its keys in sorted order. -/
theorem save_load_roundtrip {α : Type} (d : List (String × α))
    (hnd : (d.map Prod.fst).Nodup) :
    (∀ k, docLookup k (save_json (load_json (some d))) = docLookup k d)
    ∧ (save_json (load_json (some d))).Perm d
    ∧ List.Pairwise (fun p q : String × α => p.1 ≤ q.1)
        (save_json (load_json (some d))) := by
  refine ⟨?_, save_json_perm d, save_json_sorted d⟩
  intro k
  exact docLookup_perm (save_json_perm d)
    (((save_json_perm d).map Prod.fst).symm.nodup hnd) k

/-- Witness for C5 at a concrete two-record shows document in reverse key order. -/
theorem save_load_roundtrip_witness :
    (([("b-show", [("show", "B")]), ("a-show", [("show", "A")])] : ShowsDoc).map
      Prod.fst).Nodup
    ∧ ((∀ k, docLookup k (save_json (load_json
          (some [("b-show", [("show", "B")]), ("a-show", [("show", "A")])]))) =
        docLookup k ([("b-show", [("show", "B")]), ("a-show", [("show", "A")])] : ShowsDoc))
      ∧ (save_json (load_json
          (some [("b-show", [("show", "B")]), ("a-show", [("show", "A")])]))).Perm
            ([("b-show", [("show", "B")]), ("a-show", [("show", "A")])] : ShowsDoc)
      ∧ List.Pairwise (fun p q : String × Rec => p.1 ≤ q.1)
          (save_json (load_json
            (some [("b-show", [("show", "B")]), ("a-show", [("show", "A")])])))) :=
  ⟨by decide,
   save_load_roundtrip [("b-show", [("show", "B")]), ("a-show", [("show", "A")])]
     (by decide)⟩

theorem authorScan_eq_find (l : List Xml) :
    authorScan l =
      (match l.find? (fun c => pyLower (stripNs c.tag) == "author") with
       | some c => pyStrip (c.text.getD "")
       | none => "") := by
  induction l with
  | nil => simp [authorScan]
  | cons c rest ih =>
    by_cases h : pyLower (stripNs c.tag) = "author"
    · have hb : (pyLower (stripNs c.tag) == "author") = true := beq_iff_eq.mpr h
      simp [authorScan, h, List.find?, hb]
    · have hb : (pyLower (stripNs c.tag) == "author") = false := beq_eq_false_iff_ne.mpr h
      simp [authorScan, h, List.find?, hb, ih]

theorem test_podcast_feed_parsed (root : Xml) (url : Option String) (body : String)
    (fetch : String → Except String String) (parseXml : String → Except String Xml)
    (hurl : pyStrip (url.getD "") ≠ "")
    (hfetch : fetch (pyStrip (url.getD "")) = Except.ok body)
    (hparse : parseXml body = Except.ok root) :
    test_podcast_feed url fetch parseXml = probeParsed root := by
  simp [test_podcast_feed, hurl, hfetch, hparse]

/-- C7: for a parsed feed whose channel is located, the author result of
the probe is the trimmed text content of the first direct child of the
channel whose tag, with any namespace prefix stripped, case-insensitively
equals author, and the empty string when no such child exists. -/
theorem author_extraction (root ch : Xml) (url : Option String) (body : String)
    (fetch : String → Except String String) (parseXml : String → Except String Xml)
    (hurl : pyStrip (url.getD "") ≠ "")
    (hfetch : fetch (pyStrip (url.getD "")) = Except.ok body)
    (hparse : parseXml body = Except.ok root)
    (hch : locateChannel root = some ch) :
    (test_podcast_feed url fetch parseXml).success = true
    ∧ (test_podcast_feed url fetch parseXml).author =
      (match ch.children.find? (fun c => pyLower (stripNs c.tag) == "author") with
       | some c => pyStrip (c.text.getD "")
       | none => "") := by
  rw [test_podcast_feed_parsed root url body fetch parseXml hurl hfetch hparse]
  unfold probeParsed
  rw [hch]
  exact ⟨rfl, authorScan_eq_find ch.children⟩

/-- Witness for C7: the probe reads the author from a namespaced,
capitalised Author child of the channel. -/
theorem author_extraction_witness :
    (pyStrip ((some "http://feed.example/a").getD "") ≠ ""
      ∧ (fun _ : String => (Except.ok "bytes" : Except String String))
          (pyStrip ((some "http://feed.example/a").getD "")) = Except.ok "bytes"
      ∧ (fun _ : String => (Except.ok wAuthorRoot : Except String Xml)) "bytes" =
          Except.ok wAuthorRoot
      ∧ locateChannel wAuthorRoot = some wAuthorChannel)
    ∧ ((test_podcast_feed (some "http://feed.example/a")
          (fun _ => Except.ok "bytes") (fun _ => Except.ok wAuthorRoot)).success = true
      ∧ (test_podcast_feed (some "http://feed.example/a")
          (fun _ => Except.ok "bytes") (fun _ => Except.ok wAuthorRoot)).author =
        (match wAuthorChannel.children.find?
            (fun c => pyLower (stripNs c.tag) == "author") with
         | some c => pyStrip (c.text.getD "")
         | none => "")) :=
  ⟨⟨by decide, rfl, rfl, rfl⟩,
   author_extraction wAuthorRoot wAuthorChannel (some "http://feed.example/a") "bytes"
     (fun _ => Except.ok "bytes") (fun _ => Except.ok wAuthorRoot)
     (by decide) rfl rfl rfl⟩

/-- C8: the probe locates the channel by trying a direct child named
channel first and the nested rss/channel path second; when both lookups
fail the probe answers success false with the missing-channel message. -/
theorem channel_lookup (root : Xml) (url : Option String) (body : String)
    (fetch : String → Except String String) (parseXml : String → Except String Xml)
    (hurl : pyStrip (url.getD "") ≠ "")
    (hfetch : fetch (pyStrip (url.getD "")) = Except.ok body)
    (hparse : parseXml body = Except.ok root) :
    (∀ c, findChannelChild root = some c → locateChannel root = some c)
    ∧ (findChannelChild root = none → locateChannel root = findRssChannel root)
    ∧ (locateChannel root = none →
      test_podcast_feed url fetch parseXml =
        ⟨false, "", "", "RSS feed is missing a channel element.", 502⟩) := by
  refine ⟨?_, ?_, ?_⟩
  · intro c hc
    simp [locateChannel, hc]
  · intro hn
    simp [locateChannel, hn]
  · intro hn
    rw [test_podcast_feed_parsed root url body fetch parseXml hurl hfetch hparse]
    unfold probeParsed
    rw [hn]

/-- Witness for C8 at a parsed document holding no channel element at all. -/
theorem channel_lookup_witness :
    (pyStrip ((some "http://feed.example/b").getD "") ≠ ""
      ∧ (fun _ : String => (Except.ok "body" : Except String String))
          (pyStrip ((some "http://feed.example/b").getD "")) = Except.ok "body"
      ∧ (fun _ : String => (Except.ok wNoChannelRoot : Except String Xml)) "body" =
          Except.ok wNoChannelRoot
      ∧ locateChannel wNoChannelRoot = none)
    ∧ ((∀ c, findChannelChild wNoChannelRoot = some c →
          locateChannel wNoChannelRoot = some c)
      ∧ (findChannelChild wNoChannelRoot = none →
          locateChannel wNoChannelRoot = findRssChannel wNoChannelRoot)
      ∧ (locateChannel wNoChannelRoot = none →
          test_podcast_feed (some "http://feed.example/b")
            (fun _ => Except.ok "body") (fun _ => Except.ok wNoChannelRoot) =
            ⟨false, "", "", "RSS feed is missing a channel element.", 502⟩)) :=
  ⟨⟨by decide, rfl, rfl, rfl⟩,
   channel_lookup wNoChannelRoot (some "http://feed.example/b") "body"
     (fun _ => Except.ok "body") (fun _ => Except.ok wNoChannelRoot)
     (by decide) rfl rfl⟩

/-- Counterexample to C3: a feed whose channel holds only a namespaced
lastBuildDate child parses and probes successfully, yet the probe returns
the empty string for last_build_date instead of the trimmed, non-empty
text of that child: the extraction is not tolerant of namespaced tags. -/
theorem namespaced_lastBuildDate_ignored :
    (∃ c, c ∈ wNsChannel.children ∧ stripNs c.tag = "lastBuildDate"
      ∧ c.tag ≠ "lastBuildDate"
      ∧ pyStrip (c.text.getD "") = "Mon, 01 Jan 2024 00:00:00 GMT")
    ∧ locateChannel wNsRoot = some wNsChannel
    ∧ (test_podcast_feed (some "http://feed.example/c") (fun _ => Except.ok "bytes")
        (fun _ => Except.ok wNsRoot)).success = true
    ∧ (test_podcast_feed (some "http://feed.example/c") (fun _ => Except.ok "bytes")
        (fun _ => Except.ok wNsRoot)).last_build_date = "" := by
  refine ⟨⟨Xml.mk "\x7bhttp://example.com/rss\x7dlastBuildDate"
      (some "Mon, 01 Jan 2024 00:00:00 GMT") [], ?_, ?_, ?_, ?_⟩, rfl, ?_, ?_⟩
  · simp [wNsChannel, Xml.children]
  · decide
  · decide
  · decide
  · decide
  · decide

/-- C3 amended: the lastBuildDate extraction matches only direct children
whose tag is exactly lastBuildDate, with no namespace tolerance: for a
located channel the probe returns the trimmed text of the first such
exact-tag child, and the empty string when none exists (so a channel whose
lastBuildDate carries a namespace yields the empty string). -/
theorem lastBuildDate_extraction (root ch : Xml) (url : Option String) (body : String)
    (fetch : String → Except String String) (parseXml : String → Except String Xml)
    (hurl : pyStrip (url.getD "") ≠ "")
    (hfetch : fetch (pyStrip (url.getD "")) = Except.ok body)
    (hparse : parseXml body = Except.ok root)
    (hch : locateChannel root = some ch) :
    (test_podcast_feed url fetch parseXml).last_build_date =
      (match ch.children.find? (fun c => c.tag == "lastBuildDate") with
       | some c => pyStrip (c.text.getD "")
       | none => "") := by
  rw [test_podcast_feed_parsed root url body fetch parseXml hurl hfetch hparse]
  unfold probeParsed
  rw [hch]
  unfold findtextLastBuildDate
  cases h : ch.children.find? (fun c => c.tag == "lastBuildDate") with
  | some c => simp [h]
  | none =>
    simp only [h]
    decide

/-- Witness for the amended C3 at a channel holding an exact-tag
lastBuildDate child with padded text. -/
theorem lastBuildDate_extraction_witness :
    (pyStrip ((some "http://feed.example/d").getD "") ≠ ""
      ∧ (fun _ : String => (Except.ok "raw" : Except String String))
          (pyStrip ((some "http://feed.example/d").getD "")) = Except.ok "raw"
      ∧ (fun _ : String => (Except.ok wLbdRoot : Except String Xml)) "raw" =
          Except.ok wLbdRoot
      ∧ locateChannel wLbdRoot = some wLbdChannel)
    ∧ (test_podcast_feed (some "http://feed.example/d")
        (fun _ => Except.ok "raw") (fun _ => Except.ok wLbdRoot)).last_build_date =
      (match wLbdChannel.children.find? (fun c => c.tag == "lastBuildDate") with
       | some c => pyStrip (c.text.getD "")
       | none => "") :=
  ⟨⟨by decide, rfl, rfl, rfl⟩,
   lastBuildDate_extraction wLbdRoot wLbdChannel (some "http://feed.example/d") "raw"
     (fun _ => Except.ok "raw") (fun _ => Except.ok wLbdRoot)
     (by decide) rfl rfl rfl⟩
